import Mathlib

/-!
Verification of `tasks.py` (luada): a task-automation script that locates a
CMake binary and a Visual Studio compiler-environment batch file on Windows
and shells out to build LuaJIT.

Shallow embedding: ambient state (platform name, environment variables,
filesystem existence, the exit status of the one spawned subprocess) is a
`Sys` record; each operation returns its Python-level result together with
the list of observable `Event`s it performed, in order.  Paths are modelled
as plain strings, path join (`pathlib`'s `/`) as string concatenation with a
separator.  Python exceptions become constructors of `PyError`.
-/

namespace Luada

/-- The kinds of Python exception `tasks.py` can raise.  `unexpectedExit`
models invoke's `UnexpectedExit`, raised by `c.run` when the spawned
subprocess exits nonzero. -/
inductive PyError where
  | notImplementedError : PyError
  | fileNotFoundError : String → PyError
  | exceptionMsg : String → PyError
  | keyError : String → PyError
  | unexpectedExit : Nat → PyError
deriving DecidableEq

/-- Observable effects, in program order.  `fsQuery` is a `Path.exists()`
check; `fallbackQuery` is the same check but at the hard-coded fallback
location (line 26 of the source), kept distinct so "without consulting the
fallback" is expressible.  `cdEnter`/`cdExit` delimit the `with c.cd(...)`
block; `spawn cmd input` is `c.run(cmd, in_stream=...)`. -/
inductive Event where
  | fsQuery : String → Event
  | fallbackQuery : String → Event
  | envRead : String → Event
  | cdEnter : String → Event
  | cdExit : Event
  | spawn : String → String → Event
deriving DecidableEq

/-- Ambient state of one run: `platform.system()`, `os.environ`, filesystem
existence, the exit status the spawned subprocess would report, and the
directory holding `tasks.py` (`HERE` in the source, runtime-dependent). -/
structure Sys where
  platformSystem : String
  env : String → Option String
  fsExists : String → Bool
  procExit : Nat
  here : String

/-- `VCVARS_BAT` of the source: the compiler-environment script's fixed
absolute location. -/
def VCVARS_BAT : String :=
  "C:\\Program Files (x86)\\Microsoft Visual Studio\\2019\\BuildTools\\VC\\Auxiliary\\Build\\vcvars64.bat"

/-- `LUAJIT_DIR = HERE / 'LuaJIT/src'`. -/
def LUAJIT_DIR (here : String) : String := here ++ "/LuaJIT/src"

/-- `LUA_BIN = LUAJIT_DIR / 'luajit.exe'`. -/
def LUA_BIN (here : String) : String := LUAJIT_DIR here ++ "/luajit.exe"

/-- `p / 'cmake.exe'` for a directory `p`. -/
def cmakeIn (p : String) : String := p ++ "/cmake.exe"

/-- The well-known fallback installation path of line 26. -/
def CMAKE_FALLBACK : String := "C:/Program Files/CMake/bin/cmake.exe"

/-- Python's `str.split(sep)` on the character level: every occurrence of
`sep` separates, adjacent separators give empty pieces, and the empty string
splits into one empty piece. -/
def splitCharAux (sep : Char) : List Char → List (List Char)
  | [] => [[]]
  | c :: rest =>
    if c = sep then [] :: splitCharAux sep rest
    else
      match splitCharAux sep rest with
      | [] => [[c]]
      | t :: ts => (c :: t) :: ts

/-- Python's `s.split(sep)` for a one-character separator. -/
def pySplit (sep : Char) (s : String) : List String :=
  (splitCharAux sep s.data).map (fun l => String.mk l)

/-- The `for p in os.environ['PATH'].split(';')` loop of `get_cmake`
(lines 18-24): skip empty entries (`if p:`), check the directory exists,
then check it holds `cmake.exe`; return the first hit.  Also returns the
existence checks performed, in order. -/
def get_cmakeSearch (fs : String → Bool) : List String → Option String × List Event
  | [] => (none, [])
  | p :: rest =>
    if p = "" then get_cmakeSearch fs rest
    else if fs p then
      if fs (cmakeIn p) then
        (some (cmakeIn p), [Event.fsQuery p, Event.fsQuery (cmakeIn p)])
      else
        ((get_cmakeSearch fs rest).1,
          Event.fsQuery p :: Event.fsQuery (cmakeIn p) :: (get_cmakeSearch fs rest).2)
    else
      ((get_cmakeSearch fs rest).1, Event.fsQuery p :: (get_cmakeSearch fs rest).2)

/-- `get_cmake` (lines 16-33): on Windows, scan the `PATH` entries; then try
the fallback path; else `FileNotFoundError('cmake.exe')`.  On any other
platform, `NotImplementedError` at once.  (`os.environ['PATH']` itself
raises `KeyError` when `PATH` is unset.) -/
def get_cmake (sys : Sys) : Except PyError String × List Event :=
  if sys.platformSystem = "Windows" then
    match sys.env "PATH" with
    | none => (Except.error (PyError.keyError "PATH"), [Event.envRead "PATH"])
    | some path =>
      match (get_cmakeSearch sys.fsExists (pySplit ';' path)).1 with
      | some cmake =>
        (Except.ok cmake, Event.envRead "PATH" :: (get_cmakeSearch sys.fsExists (pySplit ';' path)).2)
      | none =>
        if sys.fsExists CMAKE_FALLBACK then
          (Except.ok CMAKE_FALLBACK,
            Event.envRead "PATH" :: (get_cmakeSearch sys.fsExists (pySplit ';' path)).2
              ++ [Event.fallbackQuery CMAKE_FALLBACK])
        else
          (Except.error (PyError.fileNotFoundError "cmake.exe"),
            Event.envRead "PATH" :: (get_cmakeSearch sys.fsExists (pySplit ';' path)).2
              ++ [Event.fallbackQuery CMAKE_FALLBACK])
  else (Except.error PyError.notImplementedError, [])

/-- The space character, the only separator `commandline` introduces. -/
def spaceChar : Char := ' '

/-- The double-quote character `commandline` wraps with. -/
def quoteChar : Char := '"'

/-- A one-character string holding the double quote. -/
def dquote : String := "\""

/-- Python's `' '.join(args)`. -/
def joinSpace : List String → String
  | [] => ""
  | [a] => a
  | a :: rest => a ++ " " ++ joinSpace rest

/-- `commandline` (lines 36-40): quote the executable when it contains a
space, then append the space-joined arguments.  (`' ' in cmd` is character
membership for a one-character needle.) -/
def commandline (exe : String) (args : List String) : String :=
  (if spaceChar ∈ exe.data then dquote ++ exe ++ dquote else exe) ++ " " ++ joinSpace args

/-- The text `build` pipes to the command interpreter's standard input:
the literal of line 54, `"msvcbuild.bat\r\nexit\r\n')"` (the final two
characters are part of the literal). -/
def BUILD_INPUT : String := "msvcbuild.bat\r\nexit\r\n')"

/-- `build` (lines 43-54): check `VCVARS_BAT` exists (else
`Exception('no vcvars64.bat')`); inside `with c.cd(LUAJIT_DIR)`, read
`os.environ["COMSPEC"]` (a `KeyError` when unset) and run the command
interpreter with `BUILD_INPUT` piped to it; the `with` block's exit runs on
every path.  A nonzero subprocess exit surfaces as `unexpectedExit`. -/
def build (sys : Sys) : Except PyError Unit × List Event :=
  if sys.fsExists VCVARS_BAT then
    match sys.env "COMSPEC" with
    | none =>
      (Except.error (PyError.keyError "COMSPEC"),
        [Event.fsQuery VCVARS_BAT, Event.cdEnter (LUAJIT_DIR sys.here),
          Event.envRead "COMSPEC", Event.cdExit])
    | some comspec =>
      ((if sys.procExit = 0 then Except.ok () else Except.error (PyError.unexpectedExit sys.procExit)),
        [Event.fsQuery VCVARS_BAT, Event.cdEnter (LUAJIT_DIR sys.here),
          Event.envRead "COMSPEC",
          Event.spawn (comspec ++ " /K \"" ++ VCVARS_BAT ++ "\"") BUILD_INPUT,
          Event.cdExit])
  else (Except.error (PyError.exceptionMsg "no vcvars64.bat"), [Event.fsQuery VCVARS_BAT])

/-- Working-directory semantics of the event trace: the current directory
plus the stack of directories saved by open `cd` blocks. -/
def cwdStep : String × List String → Event → String × List String
  | (cwd, saved), Event.cdEnter d => (d, cwd :: saved)
  | (cwd, saved), Event.cdExit =>
    match saved with
    | [] => (cwd, [])
    | prev :: rest => (prev, rest)
  | s, _ => s

/-- The working directory after a trace, starting from `cwd0` with no open
`cd` block. -/
def cwdAfter (cwd0 : String) (es : List Event) : String :=
  (es.foldl cwdStep (cwd0, [])).1

/-- The working directory in effect at each `spawn` of a trace, given the
running `cwdStep` state. -/
def spawnCwdsAux (s : String × List String) : List Event → List String
  | [] => []
  | e :: es =>
    match e with
    | Event.spawn _ _ => s.1 :: spawnCwdsAux (cwdStep s e) es
    | _ => spawnCwdsAux (cwdStep s e) es

/-- The working directory in effect at each `spawn` of a trace, starting
from `cwd0`. -/
def spawnCwds (cwd0 : String) (es : List Event) : List String :=
  spawnCwdsAux (cwd0, []) es

/-- Modelled from the spec: "simple whitespace splitting, respecting the
added quoting" — scan the characters; outside quotes a space ends the
current token (empty tokens dropped), a double quote toggles quoted mode,
every other character joins the current token. -/
def tokAux : List Char → Bool → List Char → List String
  | [], _, cur => if cur = [] then [] else [String.mk cur]
  | c :: rest, inQ, cur =>
    if c = quoteChar then tokAux rest (!inQ) cur
    else if c = spaceChar ∧ inQ = false then
      (if cur = [] then tokAux rest false [] else String.mk cur :: tokAux rest false [])
    else tokAux rest inQ (cur ++ [c])

/-- Modelled from the spec: the re-parse of a composed command line into its
whitespace-separated, quote-respecting tokens. -/
def parseTokens (s : String) : List String := tokAux s.data false []

/-! ## Concrete systems used to evaluate the model -/

/-- A Windows host where `vcvars64.bat` exists and `COMSPEC` points at
`cmd.exe`; the subprocess exits 0. -/
def sysWin : Sys where
  platformSystem := "Windows"
  env := fun k => if k = "COMSPEC" then some "C:/Windows/System32/cmd.exe" else none
  fsExists := fun p => p = VCVARS_BAT
  procExit := 0
  here := "C:/repo"

/-- A Windows host with a bare filesystem (nothing exists) and an empty
environment. -/
def sysBare : Sys where
  platformSystem := "Windows"
  env := fun _ => none
  fsExists := fun _ => false
  procExit := 0
  here := "C:/repo"

/-- A Windows host where `vcvars64.bat` exists but `COMSPEC` is unset. -/
def sysNoComspec : Sys where
  platformSystem := "Windows"
  env := fun _ => none
  fsExists := fun p => p = VCVARS_BAT
  procExit := 0
  here := "C:/repo"

/-- A Linux host. -/
def sysLinux : Sys where
  platformSystem := "Linux"
  env := fun _ => none
  fsExists := fun _ => false
  procExit := 0
  here := "/repo"

/-- A Windows host whose filesystem holds every path, with a two-entry
`PATH`. -/
def sysAllFs : Sys where
  platformSystem := "Windows"
  env := fun k => if k = "PATH" then some "C:/a;C:/tools" else none
  fsExists := fun _ => true
  procExit := 0
  here := "C:/repo"

/-- A Windows host with a two-entry `PATH` and a bare filesystem. -/
def sysEmptyPath : Sys where
  platformSystem := "Windows"
  env := fun k => if k = "PATH" then some "C:/a;C:/b" else none
  fsExists := fun _ => false
  procExit := 0
  here := "C:/repo"

/-! ## C9: quoting of the executable path -/

/-- C9: for every executable path and argument list, `commandline` wraps the
executable in quotes exactly when the path contains a space: a path with a
space is always quoted, a path without a space is never quoted. -/
theorem commandline_quoted_iff_space (exe : String) (args : List String) :
    (spaceChar ∈ exe.data →
      commandline exe args = dquote ++ exe ++ dquote ++ " " ++ joinSpace args)
    ∧ (spaceChar ∉ exe.data →
      commandline exe args = exe ++ " " ++ joinSpace args) := by
  constructor <;> intro h <;> simp [commandline, h, String.append_assoc]

/-- C9 witness: at `"a b"` (space: quoted) and `"ab"` (no space: unquoted). -/
theorem commandline_quoted_iff_space_witness :
    commandline "a b" ["x"] = dquote ++ "a b" ++ dquote ++ " " ++ joinSpace ["x"]
    ∧ commandline "ab" ["x"] = "ab" ++ " " ++ joinSpace ["x"] :=
  ⟨(commandline_quoted_iff_space "a b" ["x"]).1 (by decide),
    (commandline_quoted_iff_space "ab" ["x"]).2 (by decide)⟩

/-! ## C7: missing vcvars64.bat -/

/-- C7: whenever the compiler-environment script is absent, `build` raises
`Exception('no vcvars64.bat')` and spawns no subprocess in that run. -/
theorem build_missing_vcvars (sys : Sys) (h : sys.fsExists VCVARS_BAT = false) :
    (build sys).1 = Except.error (PyError.exceptionMsg "no vcvars64.bat")
    ∧ ∀ c i, Event.spawn c i ∉ (build sys).2 := by
  simp [build, h]

/-- C7 witness: on the bare system the error is raised and nothing spawns. -/
theorem build_missing_vcvars_witness :
    (build sysBare).1 = Except.error (PyError.exceptionMsg "no vcvars64.bat")
    ∧ ∀ c i, Event.spawn c i ∉ (build sysBare).2 :=
  build_missing_vcvars sysBare (by decide)

/-! ## C10: COMSPEC unset -/

/-- C10: when the script exists but `COMSPEC` is unset, `build` fails with
`KeyError("COMSPEC")`, after the prerequisite check (the first event is the
`VCVARS_BAT` existence check) and before any subprocess is spawned. -/
theorem build_missing_comspec (sys : Sys) (h1 : sys.fsExists VCVARS_BAT = true)
    (h2 : sys.env "COMSPEC" = none) :
    (build sys).1 = Except.error (PyError.keyError "COMSPEC")
    ∧ (build sys).2.head? = some (Event.fsQuery VCVARS_BAT)
    ∧ ∀ c i, Event.spawn c i ∉ (build sys).2 := by
  simp [build, h1, h2]

/-- C10 witness: on the `COMSPEC`-less system. -/
theorem build_missing_comspec_witness :
    (build sysNoComspec).1 = Except.error (PyError.keyError "COMSPEC")
    ∧ (build sysNoComspec).2.head? = some (Event.fsQuery VCVARS_BAT)
    ∧ ∀ c i, Event.spawn c i ∉ (build sysNoComspec).2 :=
  build_missing_comspec sysNoComspec (by decide) (by decide)

/-! ## C8: non-Windows platforms -/

/-- C8: on every platform other than Windows, `get_cmake` fails immediately
with `NotImplementedError` and performs no filesystem existence check. -/
theorem get_cmake_non_windows (sys : Sys) (h : sys.platformSystem ≠ "Windows") :
    (get_cmake sys).1 = Except.error PyError.notImplementedError
    ∧ ∀ p, Event.fsQuery p ∉ (get_cmake sys).2 ∧ Event.fallbackQuery p ∉ (get_cmake sys).2 := by
  simp [get_cmake, h]

/-- C8 witness: on the Linux system. -/
theorem get_cmake_non_windows_witness :
    (get_cmake sysLinux).1 = Except.error PyError.notImplementedError
    ∧ ∀ p, Event.fsQuery p ∉ (get_cmake sysLinux).2 ∧ Event.fallbackQuery p ∉ (get_cmake sysLinux).2 :=
  get_cmake_non_windows sysLinux (by decide)

/-! ## C2: the piped input stream -/

/-- C2: on a run that reaches the subprocess, the piped input stream is the
literal of line 54; it equals the intended two lines followed by the stray
characters of the source literal, and is not exactly the two lines.  This
records the divergence between the code and the stated keystroke
sequence. -/
theorem build_input_stray_chars :
    Event.spawn ("C:/Windows/System32/cmd.exe /K \"" ++ VCVARS_BAT ++ "\"") BUILD_INPUT
      ∈ (build sysWin).2
    ∧ BUILD_INPUT = "msvcbuild.bat\r\nexit\r\n" ++ "')"
    ∧ BUILD_INPUT ≠ "msvcbuild.bat\r\nexit\r\n" := by decide

/-! ## C1: what build is composed of -/

/-- C1 counterexample: a run of `build` that spawns its subprocess without
ever reading the search-path variable, refuting "for every invocation of
build, it performs the CMake-executable lookup (consuming the system
search-path variable) ... before spawning the subprocess". -/
theorem build_no_cmake_lookup_cex :
    Event.spawn ("C:/Windows/System32/cmd.exe /K \"" ++ VCVARS_BAT ++ "\"") BUILD_INPUT
      ∈ (build sysWin).2
    ∧ Event.envRead "PATH" ∉ (build sysWin).2 := by decide

/-- C1 amended: every invocation of `build` performs the
compiler-environment-script check first (before anything else, hence before
any spawn), and never performs the CMake lookup: the search-path variable is
never read, the only environment variable read is `COMSPEC`. -/
theorem build_only_vcvars_check (sys : Sys) :
    (build sys).2.head? = some (Event.fsQuery VCVARS_BAT)
    ∧ Event.envRead "PATH" ∉ (build sys).2
    ∧ ∀ k, Event.envRead k ∈ (build sys).2 → k = "COMSPEC" := by
  cases hf : sys.fsExists VCVARS_BAT <;> cases hc : sys.env "COMSPEC" <;>
    simp [build, hf, hc]

/-! ## C4: the working directory is scoped -/

/-- C4: whenever the compiler-environment script exists, every subprocess of
the run is spawned with the working directory set to the LuaJIT source tree,
and the working directory after the run is the original one — on every exit
path, whatever the subprocess's exit status (`sys.procExit` is
universally quantified here). -/
theorem build_scoped_cwd (sys : Sys) (cwd0 : String)
    (h : sys.fsExists VCVARS_BAT = true) :
    Event.cdEnter (LUAJIT_DIR sys.here) ∈ (build sys).2
    ∧ cwdAfter cwd0 (build sys).2 = cwd0
    ∧ ∀ d ∈ spawnCwds cwd0 (build sys).2, d = LUAJIT_DIR sys.here := by
  cases hc : sys.env "COMSPEC" <;>
    simp [build, h, hc, cwdAfter, spawnCwds, spawnCwdsAux, cwdStep]

/-- C4 witness: on `sysWin` starting from directory `"orig"`. -/
theorem build_scoped_cwd_witness :
    Event.cdEnter (LUAJIT_DIR sysWin.here) ∈ (build sysWin).2
    ∧ cwdAfter "orig" (build sysWin).2 = "orig"
    ∧ ∀ d ∈ spawnCwds "orig" (build sysWin).2, d = LUAJIT_DIR sysWin.here :=
  build_scoped_cwd sysWin "orig" (by decide)

/-! ## C5 and C6: the toolchain locator's search -/

/-- The `PATH` scan never performs the fallback existence check. -/
theorem get_cmakeSearch_no_fallback (fs : String → Bool) (l : List String) (q : String) :
    Event.fallbackQuery q ∉ (get_cmakeSearch fs l).2 := by
  induction l with
  | nil => simp [get_cmakeSearch]
  | cons p rest ih =>
    by_cases hp : p = "" <;> cases hfp : fs p <;> cases hcm : fs (cmakeIn p) <;>
      simp [get_cmakeSearch, hp, hfp, hcm, ih]

/-- When some listed entry holds `cmake.exe` (and files only exist inside
existing directories), the scan returns the tool inside the first such
entry. -/
theorem get_cmakeSearch_find (fs : String → Bool) (l : List String) (d : String)
    (hwf : ∀ p, fs (cmakeIn p) = true → fs p = true)
    (hfind : l.find? (fun p => p != "" && fs (cmakeIn p)) = some d) :
    (get_cmakeSearch fs l).1 = some (cmakeIn d) := by
  induction l with
  | nil => simp at hfind
  | cons p rest ih =>
    by_cases hp : p = ""
    · subst hp
      simp only [List.find?_cons, bne_self_eq_false, Bool.false_and] at hfind
      simp [get_cmakeSearch, ih hfind]
    · have hbne : (p != "") = true := by simp [hp]
      cases hcm : fs (cmakeIn p) with
      | true =>
        have hfp : fs p = true := hwf p hcm
        simp only [List.find?_cons, hbne, hcm, Bool.and_self] at hfind
        have hd : p = d := Option.some.inj hfind
        subst hd
        simp [get_cmakeSearch, hp, hfp, hcm]
      | false =>
        simp only [List.find?_cons, hbne, hcm, Bool.and_false] at hfind
        cases hfp : fs p <;> simp [get_cmakeSearch, hp, hfp, hcm, ih hfind]

/-- When no listed entry holds `cmake.exe`, the scan comes up empty. -/
theorem get_cmakeSearch_none (fs : String → Bool) (l : List String)
    (h : ∀ p ∈ l, fs (cmakeIn p) = false) :
    (get_cmakeSearch fs l).1 = none := by
  induction l with
  | nil => simp [get_cmakeSearch]
  | cons p rest ih =>
    have hp := h p (by simp)
    have hrest : ∀ q ∈ rest, fs (cmakeIn q) = false := fun q hq => h q (by simp [hq])
    by_cases hpe : p = "" <;> cases hfp : fs p <;>
      simp [get_cmakeSearch, hpe, hfp, hp, ih hrest]

/-- C5: on Windows, when at least one `PATH` entry contains `cmake.exe`
(`find?` names the first such entry `d`; files only exist inside existing
directories), `get_cmake` returns `cmake.exe` inside that first entry and
never consults the fallback installation path. -/
theorem get_cmake_first_hit (sys : Sys) (path d : String)
    (hwin : sys.platformSystem = "Windows")
    (hpath : sys.env "PATH" = some path)
    (hwf : ∀ p, sys.fsExists (cmakeIn p) = true → sys.fsExists p = true)
    (hfind : (pySplit ';' path).find? (fun p => p != "" && sys.fsExists (cmakeIn p))
      = some d) :
    (get_cmake sys).1 = Except.ok (cmakeIn d)
    ∧ ∀ q, Event.fallbackQuery q ∉ (get_cmake sys).2 := by
  have hsearch := get_cmakeSearch_find sys.fsExists (pySplit ';' path) d hwf hfind
  simp [get_cmake, hwin, hpath, hsearch, get_cmakeSearch_no_fallback]

/-- C5 witness: with `PATH = "C:/a;C:/tools"` and every path existing, the
locator returns `C:/a/cmake.exe` and never consults the fallback. -/
theorem get_cmake_first_hit_witness :
    (get_cmake sysAllFs).1 = Except.ok (cmakeIn "C:/a")
    ∧ ∀ q, Event.fallbackQuery q ∉ (get_cmake sysAllFs).2 :=
  get_cmake_first_hit sysAllFs "C:/a;C:/tools" "C:/a" (by decide) (by decide)
    (fun _ _ => rfl) (by decide)

/-- C6: on Windows, when no `PATH` entry contains `cmake.exe` and the
fallback path does not exist either, `get_cmake` raises
`FileNotFoundError('cmake.exe')`. -/
theorem get_cmake_not_found (sys : Sys) (path : String)
    (hwin : sys.platformSystem = "Windows")
    (hpath : sys.env "PATH" = some path)
    (hnone : ∀ p ∈ pySplit ';' path, sys.fsExists (cmakeIn p) = false)
    (hfb : sys.fsExists CMAKE_FALLBACK = false) :
    (get_cmake sys).1 = Except.error (PyError.fileNotFoundError "cmake.exe") := by
  have hsearch := get_cmakeSearch_none sys.fsExists (pySplit ';' path) hnone
  simp [get_cmake, hwin, hpath, hsearch, hfb]

/-- C6 witness: with `PATH = "C:/a;C:/b"` and a bare filesystem. -/
theorem get_cmake_not_found_witness :
    (get_cmake sysEmptyPath).1 = Except.error (PyError.fileNotFoundError "cmake.exe") :=
  get_cmake_not_found sysEmptyPath "C:/a;C:/b" (by decide) (by decide) (by decide)
    (by decide)

/-! ## C3: the composed command line re-parses -/

/-- The double-quote string is the one-element quote-character list. -/
theorem dquote_data : dquote.data = [quoteChar] := rfl

/-- The one-space string is the one-element space-character list. -/
theorem space_string_data : (" " : String).data = [spaceChar] := rfl

/-- A leading double quote toggles the tokenizer's quoted mode. -/
theorem tokAux_quote (rest : List Char) (inQ : Bool) (cur : List Char) :
    tokAux (quoteChar :: rest) inQ cur = tokAux rest (!inQ) cur := by
  simp [tokAux]

/-- Outside quotes, a space after a nonempty token emits that token. -/
theorem tokAux_space (rest : List Char) (cur : List Char) (h : cur ≠ []) :
    tokAux (spaceChar :: rest) false cur = String.mk cur :: tokAux rest false [] := by
  have hq : spaceChar ≠ quoteChar := by decide
  simp [tokAux, hq, h]

/-- Characters that are neither quotes nor spaces accumulate onto the
current token, in either mode. -/
theorem tokAux_accum (t : List Char) (hq : quoteChar ∉ t) (hs : spaceChar ∉ t)
    (rest : List Char) (inQ : Bool) (cur : List Char) :
    tokAux (t ++ rest) inQ cur = tokAux rest inQ (cur ++ t) := by
  induction t generalizing cur with
  | nil => simp
  | cons c t ih =>
    have hcq : c ≠ quoteChar := fun h => hq (by simp [h])
    have hcs : c ≠ spaceChar := fun h => hs (by simp [h])
    have hq2 : quoteChar ∉ t := fun h => hq (by simp [h])
    have hs2 : spaceChar ∉ t := fun h => hs (by simp [h])
    have step : tokAux ((c :: t) ++ rest) inQ cur = tokAux (t ++ rest) inQ (cur ++ [c]) := by
      simp [tokAux, hcq, hcs]
    rw [step, ih hq2 hs2]
    simp

/-- Inside quotes, every non-quote character (spaces included) accumulates
onto the current token. -/
theorem tokAux_inQuote (t : List Char) (hq : quoteChar ∉ t)
    (rest : List Char) (cur : List Char) :
    tokAux (t ++ rest) true cur = tokAux rest true (cur ++ t) := by
  induction t generalizing cur with
  | nil => simp
  | cons c t ih =>
    have hcq : c ≠ quoteChar := fun h => hq (by simp [h])
    have hq2 : quoteChar ∉ t := fun h => hq (by simp [h])
    have step : tokAux ((c :: t) ++ rest) true cur = tokAux (t ++ rest) true (cur ++ [c]) := by
      simp [tokAux, hcq]
    rw [step, ih hq2]
    simp

/-- The space-joined argument list, on the character level. -/
theorem joinSpace_data_cons (a b : String) (rest : List String) :
    (joinSpace (a :: b :: rest)).data = a.data ++ spaceChar :: (joinSpace (b :: rest)).data := by
  show (a ++ " " ++ joinSpace (b :: rest)).data = _
  simp only [String.data_append]
  rw [List.append_assoc]
  rfl

/-- The tokenizer recovers a space-joined list of nonempty, quote-free,
space-free tokens. -/
theorem tokAux_joinSpace (args : List String)
    (h : ∀ a ∈ args, a ≠ "" ∧ quoteChar ∉ a.data ∧ spaceChar ∉ a.data) :
    tokAux (joinSpace args).data false [] = args := by
  induction args with
  | nil => simp [joinSpace, tokAux]
  | cons a rest ih =>
    obtain ⟨ha0, haq, has⟩ := h a (by simp)
    have hadata : a.data ≠ [] := fun hh => ha0 (congrArg String.mk hh)
    cases rest with
    | nil =>
      have hacc : tokAux (a.data ++ []) false [] = tokAux [] false ([] ++ a.data) :=
        tokAux_accum a.data haq has [] false []
      simp only [List.append_nil, List.nil_append] at hacc
      show tokAux a.data false [] = [a]
      rw [hacc]
      simp [tokAux, hadata]
    | cons b rest2 =>
      have ihr := ih (fun x hx => h x (List.mem_cons_of_mem _ hx))
      rw [joinSpace_data_cons, tokAux_accum a.data haq has, List.nil_append,
        tokAux_space _ _ hadata, ihr]

/-- C3 counterexample: an argument containing a space is not quoted by
`commandline`, so the composed line re-parses into three tokens, not back
into executable `"a"` with the single argument `"b c"`. -/
theorem commandline_roundtrip_cex :
    parseTokens (commandline "a" ["b c"]) ≠ "a" :: ["b c"] := by decide

/-- C3 amended: for every nonempty executable path free of double quotes,
and every argument list whose entries are nonempty and free of spaces and
double quotes, the composed command line re-parses (whitespace splitting,
respecting the added quoting) back into the same executable path and the
same argument list.  The executable path may contain spaces: the added
quoting protects it. -/
theorem commandline_roundtrip (exe : String) (args : List String)
    (hexe0 : exe ≠ "") (hexeq : quoteChar ∉ exe.data)
    (hargs : ∀ a ∈ args, a ≠ "" ∧ quoteChar ∉ a.data ∧ spaceChar ∉ a.data) :
    parseTokens (commandline exe args) = exe :: args := by
  have hjoin := tokAux_joinSpace args hargs
  have hexedata : exe.data ≠ [] := fun hh => hexe0 (congrArg String.mk hh)
  unfold parseTokens commandline
  by_cases hs : spaceChar ∈ exe.data
  · rw [if_pos hs]
    simp only [String.data_append, dquote_data, List.append_assoc,
      List.singleton_append]
    show tokAux
        (quoteChar :: (exe.data ++ (quoteChar :: (spaceChar :: (joinSpace args).data))))
        false [] = exe :: args
    rw [tokAux_quote]
    simp only [Bool.not_false]
    rw [tokAux_inQuote exe.data hexeq, List.nil_append, tokAux_quote]
    simp only [Bool.not_true]
    rw [tokAux_space _ _ hexedata, hjoin]
  · rw [if_neg hs]
    simp only [String.data_append, List.append_assoc, List.singleton_append]
    show tokAux (exe.data ++ (spaceChar :: (joinSpace args).data)) false [] = exe :: args
    rw [tokAux_accum exe.data hexeq hs, List.nil_append,
      tokAux_space _ _ hexedata, hjoin]

/-- C3 witness: a space-holding executable path with two plain arguments
comes back unchanged. -/
theorem commandline_roundtrip_witness :
    parseTokens (commandline "C:/Program Files/CMake/bin/cmake.exe" ["-G", "Ninja"])
      = "C:/Program Files/CMake/bin/cmake.exe" :: ["-G", "Ninja"] :=
  commandline_roundtrip "C:/Program Files/CMake/bin/cmake.exe" ["-G", "Ninja"]
    (by decide) (by decide) (by decide)

end Luada
